import Mathlib

/-
Verification development for the White Room drum machine plugin bridge
(src/src/DrumMachinePlugin.cpp).

The plugin layer is modelled shallowly:
  * the parameter registry (the juce AudioParameterFloat cells owned by the
    plugin) is a record of rational-valued cells; assignment to a cell clamps
    to the parameter's declared range, as juce AudioParameterFloat assignment
    does;
  * the external DSP engine's by-name parameter store (the target of
    drumMachine.setParameter calls) is a map from names to rationals;
  * the preset table is a list of Preset records with the literal factory
    values of loadFactoryPresets;
  * persisted state is a ValueTree: a root tag plus named properties, and the
    byte streams exchanged with the host are classified by StreamFormat.

Floating point values are modelled as rationals: the bridge code only copies
and compares parameter values (it performs no float arithmetic on the paths
verified here), so every value involved is an exact literal.
-/

namespace WhiteRoomDrum

/-- Clamp a value into a closed interval, as the juce parameter assignment
operator does via its normalisable range. -/
def clampQ (lo hi x : ℚ) : ℚ := max lo (min x hi)

/-- The plugin's parameter registry: the 17 scalar juce parameter cells
registered in the DrumMachinePlugin constructor (lines 30-53) plus the 16
track-volume cells (lines 56-61). The C++ field `structure` is spelled
«structure» because `structure` is a Lean keyword. -/
structure Registry where
  tempo : ℚ
  swing : ℚ
  master : ℚ
  patternLength : ℚ
  pocketOffset : ℚ
  pushOffset : ℚ
  pullOffset : ℚ
  dillaAmount : ℚ
  dillaHatBias : ℚ
  dillaSnareLate : ℚ
  dillaKickTight : ℚ
  dillaMaxDrift : ℚ
  «structure» : ℚ
  stereoWidth : ℚ
  roomWidth : ℚ
  effectsWidth : ℚ
  trackVolumes : Fin 16 → ℚ

/-- The registered defaults of every parameter (constructor lines 30-61). -/
def defaultRegistry : Registry where
  tempo := 120
  swing := 0
  master := 0.8
  patternLength := 16
  pocketOffset := 0
  pushOffset := -0.04
  pullOffset := 0.06
  dillaAmount := 0.6
  dillaHatBias := 0.55
  dillaSnareLate := 0.8
  dillaKickTight := 0.7
  dillaMaxDrift := 0.15
  «structure» := 0.5
  stereoWidth := 0.5
  roomWidth := 0.3
  effectsWidth := 0.7
  trackVolumes := fun _ => 0.8

/-- The Preset record (source lines 272-288): a name plus 13 numeric fields.
It has no patternLength, roomWidth, effectsWidth or track-volume field. -/
structure Preset where
  name : String
  tempo : ℚ
  swing : ℚ
  masterVolume : ℚ
  pocketOffset : ℚ
  pushOffset : ℚ
  pullOffset : ℚ
  dillaAmount : ℚ
  dillaHatBias : ℚ
  dillaSnareLate : ℚ
  dillaKickTight : ℚ
  dillaMaxDrift : ℚ
  «structure» : ℚ
  stereoWidth : ℚ
deriving DecidableEq, Repr

/-- Factory preset 1 (source lines 298-314). -/
def basic808 : Preset where
  name := "Basic 808"
  tempo := 120
  swing := 0
  masterVolume := 0.8
  pocketOffset := 0
  pushOffset := -0.04
  pullOffset := 0.06
  dillaAmount := 0
  dillaHatBias := 0.5
  dillaSnareLate := 0.5
  dillaKickTight := 0.9
  dillaMaxDrift := 0.05
  «structure» := 0.3
  stereoWidth := 0.5

/-- Factory preset 2 (source lines 316-332). -/
def dilla : Preset where
  name := "J Dilla Style"
  tempo := 95
  swing := 0.6
  masterVolume := 0.8
  pocketOffset := 0
  pushOffset := -0.05
  pullOffset := 0.08
  dillaAmount := 0.7
  dillaHatBias := 0.6
  dillaSnareLate := 0.9
  dillaKickTight := 0.6
  dillaMaxDrift := 0.12
  «structure» := 0.6
  stereoWidth := 0.6

/-- Factory preset 3 (source lines 334-350). -/
def house : Preset where
  name := "Tight House"
  tempo := 128
  swing := 0
  masterVolume := 0.85
  pocketOffset := 0
  pushOffset := 0
  pullOffset := 0
  dillaAmount := 0
  dillaHatBias := 0.5
  dillaSnareLate := 0.5
  dillaKickTight := 1
  dillaMaxDrift := 0.01
  «structure» := 0.2
  stereoWidth := 0.4

/-- Factory preset 4 (source lines 352-368). -/
def hiphop : Preset where
  name := "Loose Hip Hop"
  tempo := 92
  swing := 0.55
  masterVolume := 0.8
  pocketOffset := 0.02
  pushOffset := -0.03
  pullOffset := 0.07
  dillaAmount := 0.5
  dillaHatBias := 0.55
  dillaSnareLate := 0.7
  dillaKickTight := 0.5
  dillaMaxDrift := 0.1
  «structure» := 0.5
  stereoWidth := 0.7

/-- Factory preset 5 (source lines 370-386). -/
def dnb : Preset where
  name := "Drum & Bass"
  tempo := 174
  swing := 0.1
  masterVolume := 0.8
  pocketOffset := 0
  pushOffset := -0.02
  pullOffset := 0.02
  dillaAmount := 0.3
  dillaHatBias := 0.5
  dillaSnareLate := 0.6
  dillaKickTight := 0.8
  dillaMaxDrift := 0.05
  «structure» := 0.7
  stereoWidth := 0.8

/-- Factory preset 6 (source lines 388-404). -/
def idm : Preset where
  name := "IDM Drill"
  tempo := 160
  swing := 0.4
  masterVolume := 0.75
  pocketOffset := 0
  pushOffset := -0.06
  pullOffset := 0.1
  dillaAmount := 0.8
  dillaHatBias := 0.6
  dillaSnareLate := 0.9
  dillaKickTight := 0.4
  dillaMaxDrift := 0.2
  «structure» := 0.9
  stereoWidth := 0.9

/-- Factory preset 7 (source lines 406-422). -/
def techno : Preset where
  name := "Techno"
  tempo := 130
  swing := 0
  masterVolume := 0.9
  pocketOffset := 0
  pushOffset := 0
  pullOffset := 0
  dillaAmount := 0
  dillaHatBias := 0.5
  dillaSnareLate := 0.5
  dillaKickTight := 1
  dillaMaxDrift := 0
  «structure» := 0.4
  stereoWidth := 0.6

/-- Factory preset 8 (source lines 424-440). -/
def afrobeat : Preset where
  name := "Afrobeat"
  tempo := 110
  swing := 0.3
  masterVolume := 0.8
  pocketOffset := 0
  pushOffset := -0.01
  pullOffset := 0.03
  dillaAmount := 0.2
  dillaHatBias := 0.5
  dillaSnareLate := 0.5
  dillaKickTight := 0.7
  dillaMaxDrift := 0.08
  «structure» := 0.5
  stereoWidth := 0.7

/-- Factory preset 9 (source lines 442-458). -/
def breakbeat : Preset where
  name := "Breakbeat"
  tempo := 140
  swing := 0.5
  masterVolume := 0.8
  pocketOffset := 0.01
  pushOffset := -0.04
  pullOffset := 0.08
  dillaAmount := 0.6
  dillaHatBias := 0.55
  dillaSnareLate := 0.7
  dillaKickTight := 0.5
  dillaMaxDrift := 0.12
  «structure» := 0.7
  stereoWidth := 0.8

/-- Factory preset 10 (source lines 460-476). -/
def minimal : Preset where
  name := "Minimal"
  tempo := 125
  swing := 0
  masterVolume := 0.7
  pocketOffset := 0
  pushOffset := 0
  pullOffset := 0
  dillaAmount := 0
  dillaHatBias := 0.5
  dillaSnareLate := 0.5
  dillaKickTight := 1
  dillaMaxDrift := 0
  «structure» := 0.1
  stereoWidth := 0.3

/-- loadFactoryPresets (source lines 294-477): clears the table and pushes the
ten factory presets in order, so its result is always this fixed list. -/
def loadFactoryPresets : List Preset :=
  [basic808, dilla, house, hiphop, dnb, idm, techno, afrobeat, breakbeat, minimal]

/-- A property value held in a juce ValueTree node: the state codec stores
floats for the 16 scalar parameters and an int for the preset index. -/
inductive PropValue
  | float (x : ℚ)
  | int (n : ℤ)
deriving DecidableEq, Repr

/-- A juce ValueTree as used by the state codec: a root tag name plus a flat
list of named properties (the codec never creates child nodes). -/
structure ValueTree where
  typeName : String
  props : List (String × PropValue)
deriving DecidableEq, Repr

/-- Look up a property by name (juce NamedValueSet lookup). -/
def findProp (props : List (String × PropValue)) (key : String) : Option PropValue :=
  match props with
  | [] => none
  | (k, v) :: rest => if k = key then some v else findProp rest key

/-- ValueTree.getProperty with a float default: an absent property yields the
default; a stored value converts to float (juce var numeric conversion). -/
def getPropertyFloat (t : ValueTree) (key : String) (deflt : ℚ) : ℚ :=
  match findProp t.props key with
  | some (.float x) => x
  | some (.int n) => (n : ℚ)
  | none => deflt

/-- ValueTree.getProperty with an int default: an absent property yields the
default; a stored float truncates toward zero (juce var int conversion). -/
def getPropertyInt (t : ValueTree) (key : String) (deflt : ℤ) : ℤ :=
  match findProp t.props key with
  | some (.int n) => n
  | some (.float x) => Int.tdiv x.num x.den
  | none => deflt

/-- Classification of the byte streams that cross the host state interface:
either the binary ValueTree stream written by ValueTree.writeToStream, or a
well-formed XML document describing a tree, or bytes that are neither. -/
inductive StreamFormat
  | binary (t : ValueTree)
  | xml (t : ValueTree)
  | malformed (s : String)
deriving DecidableEq, Repr

/-- Modelled from the spec and the juce library contract: XmlDocument.parse
succeeds exactly on well-formed XML text. The binary stream written by
ValueTree.writeToStream begins with the root type name bytes (here the letters
of "state"), never with the opening angle bracket every well-formed XML
document starts with, so a binary stream or arbitrary malformed bytes fail to
parse and yield a null document. -/
def xmlParse : StreamFormat → Option ValueTree
  | .xml t => some t
  | _ => none

/-- The external engine's parameter store: drumMachine.setParameter writes one
named cell of this map. -/
def setParam (m : String → ℚ) (key : String) (v : ℚ) : String → ℚ :=
  fun s => if s = key then v else m s

/-- The whole plugin state touched by the verified operations: the registry,
the engine parameter map, the preset table, the current preset snapshot and
the current preset index. -/
structure Plugin where
  registry : Registry
  dsp : String → ℚ
  factoryPresets : List Preset
  currentPreset : Preset
  currentPresetIndex : ℤ

/-- applyPresetToDSP (source lines 483-498): pushes the current preset's 13
fields into the engine's named parameters, in source order. It writes the
engine map only; no registry cell is touched. -/
def applyPresetToDSP (p : Preset) (m : String → ℚ) : String → ℚ :=
  setParam (setParam (setParam (setParam (setParam (setParam (setParam (setParam
    (setParam (setParam (setParam (setParam (setParam m
    "tempo" p.tempo)
    "swing" p.swing)
    "masterVolume" p.masterVolume)
    "pocketOffset" p.pocketOffset)
    "pushOffset" p.pushOffset)
    "pullOffset" p.pullOffset)
    "dillaAmount" p.dillaAmount)
    "dillaHatBias" p.dillaHatBias)
    "dillaSnareLate" p.dillaSnareLate)
    "dillaKickTight" p.dillaKickTight)
    "dillaMaxDrift" p.dillaMaxDrift)
    "structure" p.«structure»)
    "stereoWidth" p.stereoWidth

/-- The 13 engine parameter names a preset owns (the names written by
applyPresetToDSP). -/
def presetOwnedNames : List String :=
  ["tempo", "swing", "masterVolume", "pocketOffset", "pushOffset", "pullOffset",
   "dillaAmount", "dillaHatBias", "dillaSnareLate", "dillaKickTight",
   "dillaMaxDrift", "structure", "stereoWidth"]

/-- getNumPrograms (source lines 166-169). -/
def getNumPrograms (pl : Plugin) : ℤ := (pl.factoryPresets.length : ℤ)

/-- getCurrentProgram (source lines 171-174). -/
def getCurrentProgram (pl : Plugin) : ℤ := pl.currentPresetIndex

/-- setCurrentProgram (source lines 176-184): for an in-range index, stores
the index, copies the table entry into currentPreset and applies it to the
engine; otherwise does nothing. -/
def setCurrentProgram (idx : ℤ) (pl : Plugin) : Plugin :=
  if 0 ≤ idx ∧ idx < (pl.factoryPresets.length : ℤ) then
    match pl.factoryPresets[idx.toNat]? with
    | some p =>
        { pl with currentPresetIndex := idx, currentPreset := p,
                  dsp := applyPresetToDSP p pl.dsp }
    | none => pl
  else pl

/-- getProgramName (source lines 186-192): the entry's name for an in-range
index, the empty string otherwise. -/
def getProgramName (idx : ℤ) (pl : Plugin) : String :=
  if 0 ≤ idx ∧ idx < (pl.factoryPresets.length : ℤ) then
    match pl.factoryPresets[idx.toNat]? with
    | some p => p.name
    | none => ""
  else ""

/-- changeProgramName (source lines 194-198): renames the entry in place for
an in-range index, no-op otherwise. -/
def changeProgramName (idx : ℤ) (newName : String) (pl : Plugin) : Plugin :=
  if 0 ≤ idx ∧ idx < (pl.factoryPresets.length : ℤ) then
    match pl.factoryPresets[idx.toNat]? with
    | some p =>
        { pl with factoryPresets :=
            pl.factoryPresets.set idx.toNat { p with name := newName } }
    | none => pl
  else pl

/-- The ValueTree built by getStateInformation (source lines 204-222): the 16
scalar registry values as float properties plus the preset index as an int
property, under root tag "state". -/
def stateTree (pl : Plugin) : ValueTree where
  typeName := "state"
  props :=
    [("tempo", .float pl.registry.tempo),
     ("swing", .float pl.registry.swing),
     ("master", .float pl.registry.master),
     ("patternLength", .float pl.registry.patternLength),
     ("pocketOffset", .float pl.registry.pocketOffset),
     ("pushOffset", .float pl.registry.pushOffset),
     ("pullOffset", .float pl.registry.pullOffset),
     ("dillaAmount", .float pl.registry.dillaAmount),
     ("dillaHatBias", .float pl.registry.dillaHatBias),
     ("dillaSnareLate", .float pl.registry.dillaSnareLate),
     ("dillaKickTight", .float pl.registry.dillaKickTight),
     ("dillaMaxDrift", .float pl.registry.dillaMaxDrift),
     ("structure", .float pl.registry.«structure»),
     ("stereoWidth", .float pl.registry.stereoWidth),
     ("roomWidth", .float pl.registry.roomWidth),
     ("effectsWidth", .float pl.registry.effectsWidth),
     ("preset", .int pl.currentPresetIndex)]

/-- getStateInformation (source lines 201-226): builds the state tree and
writes it to the destination block with ValueTree.writeToStream, which emits
the binary ValueTree format, not XML text. -/
def getStateInformation (pl : Plugin) : StreamFormat :=
  .binary (stateTree pl)

/-- The 16 scalar registry writes of setStateInformation (source lines
238-253): each cell is assigned getProperty of its key with its registered
default, and the juce parameter assignment clamps to the declared range.
Track volumes are not touched. -/
def applyState (t : ValueTree) (r : Registry) : Registry :=
  { r with
    tempo := clampQ 60 200 (getPropertyFloat t "tempo" 120),
    swing := clampQ 0 1 (getPropertyFloat t "swing" 0),
    master := clampQ 0 1 (getPropertyFloat t "master" 0.8),
    patternLength := clampQ 1 16 (getPropertyFloat t "patternLength" 16),
    pocketOffset := clampQ (-0.1) 0.1 (getPropertyFloat t "pocketOffset" 0),
    pushOffset := clampQ (-0.1) 0.1 (getPropertyFloat t "pushOffset" (-0.04)),
    pullOffset := clampQ (-0.1) 0.1 (getPropertyFloat t "pullOffset" 0.06),
    dillaAmount := clampQ 0 1 (getPropertyFloat t "dillaAmount" 0.6),
    dillaHatBias := clampQ 0 1 (getPropertyFloat t "dillaHatBias" 0.55),
    dillaSnareLate := clampQ 0 1 (getPropertyFloat t "dillaSnareLate" 0.8),
    dillaKickTight := clampQ 0 1 (getPropertyFloat t "dillaKickTight" 0.7),
    dillaMaxDrift := clampQ 0 0.3 (getPropertyFloat t "dillaMaxDrift" 0.15),
    «structure» := clampQ 0 1 (getPropertyFloat t "structure" 0.5),
    stereoWidth := clampQ 0 1 (getPropertyFloat t "stereoWidth" 0.5),
    roomWidth := clampQ 0 1 (getPropertyFloat t "roomWidth" 0.3),
    effectsWidth := clampQ 0 1 (getPropertyFloat t "effectsWidth" 0.7) }

/-- setStateInformation (source lines 228-265): parses the incoming bytes as
an XML document; on success writes the 16 scalar cells and the preset index,
and copies the table entry into currentPreset when the index is in range; on
parse failure nothing is written. In every case applyPresetToDSP runs at the
end, pushing the (possibly unchanged) currentPreset into the engine. -/
def setStateInformation (s : StreamFormat) (pl : Plugin) : Plugin :=
  let pl2 :=
    match xmlParse s with
    | some state =>
        let idx := getPropertyInt state "preset" 0
        let pl1 := { pl with registry := applyState state pl.registry,
                             currentPresetIndex := idx }
        if 0 ≤ idx ∧ idx < (pl.factoryPresets.length : ℤ) then
          match pl.factoryPresets[idx.toNat]? with
          | some p => { pl1 with currentPreset := p }
          | none => pl1
        else pl1
    | none => pl
  { pl2 with dsp := applyPresetToDSP pl2.currentPreset pl2.dsp }

/-- A freshly constructed plugin (constructor lines 22-72): registry at the
registered defaults, factory table loaded, preset 0 selected and applied to
the engine, whose prior parameter store is dsp0. The factory table is
nonempty, so headD takes its head. -/
def freshPlugin (dsp0 : String → ℚ) : Plugin where
  registry := defaultRegistry
  dsp := applyPresetToDSP (loadFactoryPresets.headD basic808) dsp0
  factoryPresets := loadFactoryPresets
  currentPreset := loadFactoryPresets.headD basic808
  currentPresetIndex := 0

/-- An incoming MIDI message as processBlock classifies it (source lines
103-117): a note-on with note number and velocity, a note-off, or any other
event kind. -/
inductive MidiMessage
  | noteOn (note : Nat) (velocity : Nat)
  | noteOff (note : Nat) (velocity : Nat)
  | other
deriving DecidableEq, Repr

/-- message.isNoteOn, the only test processBlock applies to a MIDI event. -/
def MidiMessage.isNoteOn : MidiMessage → Bool
  | .noteOn _ _ => true
  | _ => false

/-- message.getNoteNumber for the messages that carry one. -/
def MidiMessage.noteNumber : MidiMessage → Nat
  | .noteOn n _ => n
  | .noteOff n _ => n
  | .other => 0

/-- The sequence of trackTrigger writes the MIDI loop of processBlock (source
lines 103-117) issues for a block's event list: one trigger, at note number
mod 16, per note-on, in order; every other event is skipped. -/
def midiTriggers : List MidiMessage → List Nat
  | [] => []
  | msg :: rest =>
      if msg.isNoteOn then msg.noteNumber % 16 :: midiTriggers rest
      else midiTriggers rest

/-- The persisted-state keys setStateInformation reads (source lines 238-255). -/
def persistedKeys : List String :=
  ["tempo", "swing", "master", "patternLength", "pocketOffset", "pushOffset",
   "pullOffset", "dillaAmount", "dillaHatBias", "dillaSnareLate",
   "dillaKickTight", "dillaMaxDrift", "structure", "stereoWidth", "roomWidth",
   "effectsWidth", "preset"]

/-- A concrete freshly constructed plugin, with the engine's prior parameter
store all zero. -/
def pl0 : Plugin := freshPlugin (fun _ => 0)

/-- A concrete session to encode: a fresh plugin whose tempo cell was moved to
150 before saving. -/
def srcTempo150 : Plugin := { pl0 with registry := { defaultRegistry with tempo := 150 } }

/-- A concrete decodable state: tempo 150 with stored preset index 1. -/
def stateTempo150preset1 : ValueTree where
  typeName := "state"
  props := [("tempo", PropValue.float 150), ("preset", PropValue.int 1)]

/-- A concrete decodable state whose stored preset index 99 is out of range. -/
def statePreset99 : ValueTree where
  typeName := "state"
  props := [("preset", PropValue.int 99)]

/-- A concrete decodable state holding only an unknown key. -/
def stateUnknownKey : ValueTree where
  typeName := "state"
  props := [("bogusKey", PropValue.float 1)]

/-- A concrete decodable state with no properties at all. -/
def stateEmpty : ValueTree where
  typeName := "state"
  props := []

section Helpers

/-- Each of the 13 preset-owned engine parameters holds the preset's value
after applyPresetToDSP. -/
theorem applyPresetToDSP_values (p : Preset) (m : String → ℚ) :
    applyPresetToDSP p m "tempo" = p.tempo ∧
    applyPresetToDSP p m "swing" = p.swing ∧
    applyPresetToDSP p m "masterVolume" = p.masterVolume ∧
    applyPresetToDSP p m "pocketOffset" = p.pocketOffset ∧
    applyPresetToDSP p m "pushOffset" = p.pushOffset ∧
    applyPresetToDSP p m "pullOffset" = p.pullOffset ∧
    applyPresetToDSP p m "dillaAmount" = p.dillaAmount ∧
    applyPresetToDSP p m "dillaHatBias" = p.dillaHatBias ∧
    applyPresetToDSP p m "dillaSnareLate" = p.dillaSnareLate ∧
    applyPresetToDSP p m "dillaKickTight" = p.dillaKickTight ∧
    applyPresetToDSP p m "dillaMaxDrift" = p.dillaMaxDrift ∧
    applyPresetToDSP p m "structure" = p.«structure» ∧
    applyPresetToDSP p m "stereoWidth" = p.stereoWidth := by
  refine ⟨?_, ?_, ?_, ?_, ?_, ?_, ?_, ?_, ?_, ?_, ?_, ?_, ?_⟩ <;>
    simp [applyPresetToDSP, setParam]

/-- An engine parameter outside the 13 preset-owned names is untouched by
applyPresetToDSP. -/
theorem applyPresetToDSP_frame (p : Preset) (m : String → ℚ) (name : String)
    (h : name ∉ presetOwnedNames) : applyPresetToDSP p m name = m name := by
  simp only [presetOwnedNames, List.mem_cons, List.not_mem_nil, or_false] at h
  push_neg at h
  obtain ⟨h1, h2, h3, h4, h5, h6, h7, h8, h9, h10, h11, h12, h13⟩ := h
  simp [applyPresetToDSP, setParam, h1, h2, h3, h4, h5, h6, h7, h8, h9, h10, h11, h12, h13]

/-- Clamping a value already inside the declared range returns it unchanged. -/
theorem clampQ_eq_self (lo hi x : ℚ) (h1 : lo ≤ x) (h2 : x ≤ hi) :
    clampQ lo hi x = x := by
  unfold clampQ
  rw [min_eq_left h2, max_eq_right h1]

/-- Streams that are not XML documents fail to parse. -/
theorem xmlParse_not_xml (s : StreamFormat) (h : ∀ t, s ≠ StreamFormat.xml t) :
    xmlParse s = none := by
  cases s with
  | binary t => rfl
  | xml t => exact absurd rfl (h t)
  | malformed str => rfl

/-- Decoding a well-formed document always writes applyState into the
registry, whatever the embedded preset index. -/
theorem setState_xml_registry (pl : Plugin) (t : ValueTree) :
    (setStateInformation (StreamFormat.xml t) pl).registry = applyState t pl.registry := by
  by_cases hc : 0 ≤ getPropertyInt t "preset" 0 ∧
      getPropertyInt t "preset" 0 < (pl.factoryPresets.length : ℤ)
  · rcases hp : pl.factoryPresets[(getPropertyInt t "preset" 0).toNat]? with _ | p <;>
      simp [setStateInformation, xmlParse, hc, hp]
  · simp [setStateInformation, xmlParse, hc]

/-- Decoding a well-formed document always stores the embedded preset index,
in range or not. -/
theorem setState_xml_index (pl : Plugin) (t : ValueTree) :
    (setStateInformation (StreamFormat.xml t) pl).currentPresetIndex =
      getPropertyInt t "preset" 0 := by
  by_cases hc : 0 ≤ getPropertyInt t "preset" 0 ∧
      getPropertyInt t "preset" 0 < (pl.factoryPresets.length : ℤ)
  · rcases hp : pl.factoryPresets[(getPropertyInt t "preset" 0).toNat]? with _ | p <;>
      simp [setStateInformation, xmlParse, hc, hp]
  · simp [setStateInformation, xmlParse, hc]

end Helpers

/-- C1: the claimed encode/decode round-trip does not hold on the code:
getStateInformation writes the binary ValueTree stream while
setStateInformation parses the bytes as XML, so decoding the produced bytes
fails and a fresh registry keeps its defaults (tempo stays 120 instead of the
encoded 150); only the incidental second half of the claim (track volumes at
their default 0.8) holds, vacuously. -/
theorem roundtrip_decode_fails :
    xmlParse (getStateInformation srcTempo150) = none ∧
    srcTempo150.registry.tempo = 150 ∧
    (setStateInformation (getStateInformation srcTempo150) pl0).registry.tempo = 120 ∧
    (∀ i : Fin 16,
      (setStateInformation (getStateInformation srcTempo150) pl0).registry.trackVolumes i = 0.8) ∧
    (120 : ℚ) ≠ 150 :=
  ⟨rfl, rfl, rfl, fun _ => rfl, by norm_num⟩

/-- C2: a structurally invalid byte stream (anything that is not a well-formed
XML document) makes the decode yield a parse failure, and no registry cell,
no preset-table entry, no current preset and no current program index is
mutated: the prior state is preserved field by field. -/
theorem setState_parse_failure_preserves_state (pl : Plugin) (s : StreamFormat)
    (h : ∀ t, s ≠ StreamFormat.xml t) :
    xmlParse s = none ∧
    (setStateInformation s pl).registry = pl.registry ∧
    (setStateInformation s pl).currentPresetIndex = pl.currentPresetIndex ∧
    (setStateInformation s pl).factoryPresets = pl.factoryPresets ∧
    (setStateInformation s pl).currentPreset = pl.currentPreset := by
  have hp : xmlParse s = none := xmlParse_not_xml s h
  refine ⟨hp, ?_, ?_, ?_, ?_⟩ <;> simp [setStateInformation, hp]

/-- C2 witness: feeding concrete malformed bytes to the decoder. -/
theorem setState_parse_failure_preserves_state_witness :
    xmlParse (StreamFormat.malformed "junk") = none ∧
    (setStateInformation (StreamFormat.malformed "junk") pl0).registry = pl0.registry ∧
    (setStateInformation (StreamFormat.malformed "junk") pl0).currentPresetIndex =
      pl0.currentPresetIndex ∧
    (setStateInformation (StreamFormat.malformed "junk") pl0).factoryPresets =
      pl0.factoryPresets ∧
    (setStateInformation (StreamFormat.malformed "junk") pl0).currentPreset =
      pl0.currentPreset :=
  setState_parse_failure_preserves_state pl0 (StreamFormat.malformed "junk")
    (fun _ hc => StreamFormat.noConfusion hc)

/-- C4 counterexample: selecting program 1 on a fresh plugin leaves the
registry tempo cell at 120; the preset value 95 is never written into the
registry cell, refuting the claim that setCurrentProgram writes the 13 preset
fields into the matching registry cells. -/
theorem setCurrentProgram_registry_counterexample :
    (setCurrentProgram 1 pl0).currentPreset = dilla ∧
    dilla.tempo = 95 ∧
    (setCurrentProgram 1 pl0).registry.tempo = 120 ∧
    (120 : ℚ) ≠ 95 :=
  ⟨rfl, rfl, rfl, by norm_num⟩

/-- C4 amended: selecting a valid program i stores i, copies preset i into the
current-preset snapshot and writes its 13 fields into the engine's matching
named parameters via setParameter; every registry cell is left unchanged. An
invalid index is a no-op. -/
theorem setCurrentProgram_applies_to_engine (pl : Plugin) (idx : ℤ) (p : Preset)
    (h0 : 0 ≤ idx) (h1 : idx < (pl.factoryPresets.length : ℤ))
    (hp : pl.factoryPresets[idx.toNat]? = some p) :
    (setCurrentProgram idx pl).registry = pl.registry ∧
    (setCurrentProgram idx pl).currentPresetIndex = idx ∧
    (setCurrentProgram idx pl).currentPreset = p ∧
    (setCurrentProgram idx pl).dsp "tempo" = p.tempo ∧
    (setCurrentProgram idx pl).dsp "swing" = p.swing ∧
    (setCurrentProgram idx pl).dsp "masterVolume" = p.masterVolume ∧
    (setCurrentProgram idx pl).dsp "pocketOffset" = p.pocketOffset ∧
    (setCurrentProgram idx pl).dsp "pushOffset" = p.pushOffset ∧
    (setCurrentProgram idx pl).dsp "pullOffset" = p.pullOffset ∧
    (setCurrentProgram idx pl).dsp "dillaAmount" = p.dillaAmount ∧
    (setCurrentProgram idx pl).dsp "dillaHatBias" = p.dillaHatBias ∧
    (setCurrentProgram idx pl).dsp "dillaSnareLate" = p.dillaSnareLate ∧
    (setCurrentProgram idx pl).dsp "dillaKickTight" = p.dillaKickTight ∧
    (setCurrentProgram idx pl).dsp "dillaMaxDrift" = p.dillaMaxDrift ∧
    (setCurrentProgram idx pl).dsp "structure" = p.«structure» ∧
    (setCurrentProgram idx pl).dsp "stereoWidth" = p.stereoWidth ∧
    (∀ j : ℤ, ¬ (0 ≤ j ∧ j < (pl.factoryPresets.length : ℤ)) →
      setCurrentProgram j pl = pl) := by
  have hd : (setCurrentProgram idx pl).dsp = applyPresetToDSP p pl.dsp := by
    simp [setCurrentProgram, h0, h1, hp]
  have hv := applyPresetToDSP_values p pl.dsp
  refine ⟨?_, ?_, ?_, ?_, ?_, ?_, ?_, ?_, ?_, ?_, ?_, ?_, ?_, ?_, ?_, ?_, ?_⟩
  · simp [setCurrentProgram, h0, h1, hp]
  · simp [setCurrentProgram, h0, h1, hp]
  · simp [setCurrentProgram, h0, h1, hp]
  · rw [hd]; exact hv.1
  · rw [hd]; exact hv.2.1
  · rw [hd]; exact hv.2.2.1
  · rw [hd]; exact hv.2.2.2.1
  · rw [hd]; exact hv.2.2.2.2.1
  · rw [hd]; exact hv.2.2.2.2.2.1
  · rw [hd]; exact hv.2.2.2.2.2.2.1
  · rw [hd]; exact hv.2.2.2.2.2.2.2.1
  · rw [hd]; exact hv.2.2.2.2.2.2.2.2.1
  · rw [hd]; exact hv.2.2.2.2.2.2.2.2.2.1
  · rw [hd]; exact hv.2.2.2.2.2.2.2.2.2.2.1
  · rw [hd]; exact hv.2.2.2.2.2.2.2.2.2.2.2.1
  · rw [hd]; exact hv.2.2.2.2.2.2.2.2.2.2.2.2
  · intro j hj
    unfold setCurrentProgram
    rw [if_neg hj]

/-- C4 amended witness: program 1 on a fresh plugin. -/
theorem setCurrentProgram_applies_to_engine_witness :
    (setCurrentProgram 1 pl0).registry = pl0.registry ∧
    (setCurrentProgram 1 pl0).currentPresetIndex = 1 ∧
    (setCurrentProgram 1 pl0).currentPreset = dilla ∧
    (setCurrentProgram 1 pl0).dsp "tempo" = dilla.tempo ∧
    (setCurrentProgram 1 pl0).dsp "swing" = dilla.swing ∧
    (setCurrentProgram 1 pl0).dsp "masterVolume" = dilla.masterVolume ∧
    (setCurrentProgram 1 pl0).dsp "pocketOffset" = dilla.pocketOffset ∧
    (setCurrentProgram 1 pl0).dsp "pushOffset" = dilla.pushOffset ∧
    (setCurrentProgram 1 pl0).dsp "pullOffset" = dilla.pullOffset ∧
    (setCurrentProgram 1 pl0).dsp "dillaAmount" = dilla.dillaAmount ∧
    (setCurrentProgram 1 pl0).dsp "dillaHatBias" = dilla.dillaHatBias ∧
    (setCurrentProgram 1 pl0).dsp "dillaSnareLate" = dilla.dillaSnareLate ∧
    (setCurrentProgram 1 pl0).dsp "dillaKickTight" = dilla.dillaKickTight ∧
    (setCurrentProgram 1 pl0).dsp "dillaMaxDrift" = dilla.dillaMaxDrift ∧
    (setCurrentProgram 1 pl0).dsp "structure" = dilla.«structure» ∧
    (setCurrentProgram 1 pl0).dsp "stereoWidth" = dilla.stereoWidth ∧
    (∀ j : ℤ, ¬ (0 ≤ j ∧ j < (pl0.factoryPresets.length : ℤ)) →
      setCurrentProgram j pl0 = pl0) :=
  setCurrentProgram_applies_to_engine pl0 1 dilla (by norm_num)
    (by norm_num [pl0, freshPlugin, loadFactoryPresets]) rfl

/-- C5: applying any preset index leaves every registry cell (in particular
patternLength, roomWidth, effectsWidth and every track volume) bit-identical,
and changes no engine parameter outside the 13 preset-owned names (in
particular not patternLength, roomWidth, effectsWidth or any trackVolume
name): a Preset carries no such field. -/
theorem preset_application_frame (pl : Plugin) (idx : ℤ) (name : String)
    (h : name ∉ presetOwnedNames) :
    (setCurrentProgram idx pl).registry = pl.registry ∧
    (setCurrentProgram idx pl).registry.patternLength = pl.registry.patternLength ∧
    (setCurrentProgram idx pl).registry.roomWidth = pl.registry.roomWidth ∧
    (setCurrentProgram idx pl).registry.effectsWidth = pl.registry.effectsWidth ∧
    (∀ i : Fin 16,
      (setCurrentProgram idx pl).registry.trackVolumes i = pl.registry.trackVolumes i) ∧
    (setCurrentProgram idx pl).dsp name = pl.dsp name := by
  have hr : (setCurrentProgram idx pl).registry = pl.registry := by
    by_cases hc : 0 ≤ idx ∧ idx < (pl.factoryPresets.length : ℤ)
    · rcases hp : pl.factoryPresets[idx.toNat]? with _ | p <;>
        simp [setCurrentProgram, hc, hp]
    · simp [setCurrentProgram, hc]
  refine ⟨hr, by rw [hr], by rw [hr], by rw [hr], fun i => by rw [hr], ?_⟩
  by_cases hc : 0 ≤ idx ∧ idx < (pl.factoryPresets.length : ℤ)
  · rcases hp : pl.factoryPresets[idx.toNat]? with _ | p
    · simp [setCurrentProgram, hc, hp]
    · have : (setCurrentProgram idx pl).dsp = applyPresetToDSP p pl.dsp := by
        simp [setCurrentProgram, hc, hp]
      rw [this]
      exact applyPresetToDSP_frame p pl.dsp name h
  · simp [setCurrentProgram, hc]

/-- C5 witness: preset 0 on a fresh plugin, checked at the engine name
patternLength. -/
theorem preset_application_frame_witness :
    (setCurrentProgram 0 pl0).registry = pl0.registry ∧
    (setCurrentProgram 0 pl0).registry.patternLength = pl0.registry.patternLength ∧
    (setCurrentProgram 0 pl0).registry.roomWidth = pl0.registry.roomWidth ∧
    (setCurrentProgram 0 pl0).registry.effectsWidth = pl0.registry.effectsWidth ∧
    (∀ i : Fin 16,
      (setCurrentProgram 0 pl0).registry.trackVolumes i = pl0.registry.trackVolumes i) ∧
    (setCurrentProgram 0 pl0).dsp "patternLength" = pl0.dsp "patternLength" :=
  preset_application_frame pl0 0 "patternLength" (by decide)

/-- C7: at the out-of-range indices -1 and 10 the program operations
(setCurrentProgram, getProgramName, changeProgramName) are no-ops on a table
of 10 entries: the plugin state is returned unchanged, the name query yields
the empty string, and the table keeps its 10 entries. -/
theorem out_of_range_program_ops_noop (pl : Plugin) (newName : String)
    (hlen : pl.factoryPresets.length = 10) :
    setCurrentProgram (-1) pl = pl ∧
    setCurrentProgram 10 pl = pl ∧
    getProgramName (-1) pl = "" ∧
    getProgramName 10 pl = "" ∧
    changeProgramName (-1) newName pl = pl ∧
    changeProgramName 10 newName pl = pl ∧
    (changeProgramName 10 newName pl).factoryPresets.length = 10 := by
  have h1 : ¬ ((0:ℤ) ≤ -1 ∧ (-1:ℤ) < (pl.factoryPresets.length : ℤ)) := by
    intro hc
    exact absurd hc.1 (by norm_num)
  have h2 : ¬ ((0:ℤ) ≤ 10 ∧ (10:ℤ) < (pl.factoryPresets.length : ℤ)) := by
    rw [hlen]
    intro hc
    exact absurd hc.2 (by norm_num)
  refine ⟨?_, ?_, ?_, ?_, ?_, ?_, ?_⟩ <;>
    simp [setCurrentProgram, getProgramName, changeProgramName, h1, h2, hlen]

/-- C7 witness: the out-of-range no-ops on a fresh plugin. -/
theorem out_of_range_program_ops_noop_witness :
    setCurrentProgram (-1) pl0 = pl0 ∧
    setCurrentProgram 10 pl0 = pl0 ∧
    getProgramName (-1) pl0 = "" ∧
    getProgramName 10 pl0 = "" ∧
    changeProgramName (-1) "Renamed" pl0 = pl0 ∧
    changeProgramName 10 "Renamed" pl0 = pl0 ∧
    (changeProgramName 10 "Renamed" pl0).factoryPresets.length = 10 :=
  out_of_range_program_ops_noop pl0 "Renamed" rfl

/-- C8: the factory table holds exactly 10 presets, and the first two carry
the literal documented values: Basic 808 with tempo 120, swing 0, dillaAmount
0, dillaKickTight 0.9, structure 0.3, and J Dilla Style with tempo 95, swing
0.6, dillaAmount 0.7, dillaSnareLate 0.9, structure 0.6. -/
theorem loadFactoryPresets_literal_values :
    loadFactoryPresets.length = 10 ∧
    loadFactoryPresets[0]? = some basic808 ∧
    loadFactoryPresets[1]? = some dilla ∧
    basic808.name = "Basic 808" ∧
    basic808.tempo = 120 ∧
    basic808.swing = 0 ∧
    basic808.dillaAmount = 0 ∧
    basic808.dillaKickTight = 0.9 ∧
    basic808.«structure» = 0.3 ∧
    dilla.name = "J Dilla Style" ∧
    dilla.tempo = 95 ∧
    dilla.swing = 0.6 ∧
    dilla.dillaAmount = 0.7 ∧
    dilla.dillaSnareLate = 0.9 ∧
    dilla.«structure» = 0.6 :=
  ⟨rfl, rfl, rfl, rfl, rfl, rfl, rfl, rfl, rfl, rfl, rfl, rfl, rfl, rfl, rfl⟩

/-- C3 counterexample: decoding a state with tempo 150 and in-range stored
preset index 1 (J Dilla Style, tempo 95) leaves the registry tempo cell at the
just-decoded 150, not at the stored preset's 95 — the preset is not reapplied
onto the registry, refuting the claim as stated. -/
theorem setState_stored_preset_not_in_registry :
    (setStateInformation (StreamFormat.xml stateTempo150preset1) pl0).currentPreset = dilla ∧
    dilla.tempo = 95 ∧
    (setStateInformation (StreamFormat.xml stateTempo150preset1) pl0).registry.tempo = 150 ∧
    (150 : ℚ) ≠ 95 :=
  ⟨rfl, rfl,
    by
      rw [setState_xml_registry]
      have hv : getPropertyFloat stateTempo150preset1 "tempo" 120 = 150 := rfl
      simp [applyState, hv]
      exact clampQ_eq_self 60 200 150 (by norm_num) (by norm_num),
    by norm_num⟩

/-- C3 amended: on a successful decode with in-range embedded preset index,
the 17 decoded scalar fields are written into the registry (which keeps the
decoded values), the table entry at that index becomes the current preset,
and that preset's 13 fields are then reapplied onto the engine's named
parameters — so the engine, not the registry, ends up at the stored preset's
values whenever the two differ. -/
theorem setState_in_range_applies_preset_to_engine (pl : Plugin) (t : ValueTree)
    (p : Preset)
    (h0 : 0 ≤ getPropertyInt t "preset" 0)
    (h1 : getPropertyInt t "preset" 0 < (pl.factoryPresets.length : ℤ))
    (hp : pl.factoryPresets[(getPropertyInt t "preset" 0).toNat]? = some p) :
    (setStateInformation (StreamFormat.xml t) pl).registry = applyState t pl.registry ∧
    (setStateInformation (StreamFormat.xml t) pl).currentPresetIndex =
      getPropertyInt t "preset" 0 ∧
    (setStateInformation (StreamFormat.xml t) pl).currentPreset = p ∧
    (setStateInformation (StreamFormat.xml t) pl).dsp "tempo" = p.tempo ∧
    (setStateInformation (StreamFormat.xml t) pl).dsp "swing" = p.swing ∧
    (setStateInformation (StreamFormat.xml t) pl).dsp "masterVolume" = p.masterVolume ∧
    (setStateInformation (StreamFormat.xml t) pl).dsp "pocketOffset" = p.pocketOffset ∧
    (setStateInformation (StreamFormat.xml t) pl).dsp "pushOffset" = p.pushOffset ∧
    (setStateInformation (StreamFormat.xml t) pl).dsp "pullOffset" = p.pullOffset ∧
    (setStateInformation (StreamFormat.xml t) pl).dsp "dillaAmount" = p.dillaAmount ∧
    (setStateInformation (StreamFormat.xml t) pl).dsp "dillaHatBias" = p.dillaHatBias ∧
    (setStateInformation (StreamFormat.xml t) pl).dsp "dillaSnareLate" = p.dillaSnareLate ∧
    (setStateInformation (StreamFormat.xml t) pl).dsp "dillaKickTight" = p.dillaKickTight ∧
    (setStateInformation (StreamFormat.xml t) pl).dsp "dillaMaxDrift" = p.dillaMaxDrift ∧
    (setStateInformation (StreamFormat.xml t) pl).dsp "structure" = p.«structure» ∧
    (setStateInformation (StreamFormat.xml t) pl).dsp "stereoWidth" = p.stereoWidth := by
  have hd : (setStateInformation (StreamFormat.xml t) pl).dsp =
      applyPresetToDSP p pl.dsp := by
    simp [setStateInformation, xmlParse, h0, h1, hp]
  have hcp : (setStateInformation (StreamFormat.xml t) pl).currentPreset = p := by
    simp [setStateInformation, xmlParse, h0, h1, hp]
  have hv := applyPresetToDSP_values p pl.dsp
  refine ⟨setState_xml_registry pl t, setState_xml_index pl t, hcp,
    ?_, ?_, ?_, ?_, ?_, ?_, ?_, ?_, ?_, ?_, ?_, ?_, ?_⟩
  · rw [hd]; exact hv.1
  · rw [hd]; exact hv.2.1
  · rw [hd]; exact hv.2.2.1
  · rw [hd]; exact hv.2.2.2.1
  · rw [hd]; exact hv.2.2.2.2.1
  · rw [hd]; exact hv.2.2.2.2.2.1
  · rw [hd]; exact hv.2.2.2.2.2.2.1
  · rw [hd]; exact hv.2.2.2.2.2.2.2.1
  · rw [hd]; exact hv.2.2.2.2.2.2.2.2.1
  · rw [hd]; exact hv.2.2.2.2.2.2.2.2.2.1
  · rw [hd]; exact hv.2.2.2.2.2.2.2.2.2.2.1
  · rw [hd]; exact hv.2.2.2.2.2.2.2.2.2.2.2.1
  · rw [hd]; exact hv.2.2.2.2.2.2.2.2.2.2.2.2

/-- C3 amended witness: the concrete state with tempo 150 and preset 1 on a
fresh plugin. -/
theorem setState_in_range_applies_preset_to_engine_witness :
    (setStateInformation (StreamFormat.xml stateTempo150preset1) pl0).registry =
      applyState stateTempo150preset1 pl0.registry ∧
    (setStateInformation (StreamFormat.xml stateTempo150preset1) pl0).currentPresetIndex =
      getPropertyInt stateTempo150preset1 "preset" 0 ∧
    (setStateInformation (StreamFormat.xml stateTempo150preset1) pl0).currentPreset = dilla ∧
    (setStateInformation (StreamFormat.xml stateTempo150preset1) pl0).dsp "tempo" =
      dilla.tempo ∧
    (setStateInformation (StreamFormat.xml stateTempo150preset1) pl0).dsp "swing" =
      dilla.swing ∧
    (setStateInformation (StreamFormat.xml stateTempo150preset1) pl0).dsp "masterVolume" =
      dilla.masterVolume ∧
    (setStateInformation (StreamFormat.xml stateTempo150preset1) pl0).dsp "pocketOffset" =
      dilla.pocketOffset ∧
    (setStateInformation (StreamFormat.xml stateTempo150preset1) pl0).dsp "pushOffset" =
      dilla.pushOffset ∧
    (setStateInformation (StreamFormat.xml stateTempo150preset1) pl0).dsp "pullOffset" =
      dilla.pullOffset ∧
    (setStateInformation (StreamFormat.xml stateTempo150preset1) pl0).dsp "dillaAmount" =
      dilla.dillaAmount ∧
    (setStateInformation (StreamFormat.xml stateTempo150preset1) pl0).dsp "dillaHatBias" =
      dilla.dillaHatBias ∧
    (setStateInformation (StreamFormat.xml stateTempo150preset1) pl0).dsp "dillaSnareLate" =
      dilla.dillaSnareLate ∧
    (setStateInformation (StreamFormat.xml stateTempo150preset1) pl0).dsp "dillaKickTight" =
      dilla.dillaKickTight ∧
    (setStateInformation (StreamFormat.xml stateTempo150preset1) pl0).dsp "dillaMaxDrift" =
      dilla.dillaMaxDrift ∧
    (setStateInformation (StreamFormat.xml stateTempo150preset1) pl0).dsp "structure" =
      dilla.«structure» ∧
    (setStateInformation (StreamFormat.xml stateTempo150preset1) pl0).dsp "stereoWidth" =
      dilla.stereoWidth :=
  setState_in_range_applies_preset_to_engine pl0 stateTempo150preset1 dilla
    (by decide) (by decide) rfl

/-- C6: only note-on events trigger a track; the trigger target is the note
number reduced mod 16 (so notes 0, 16, 32, 48 trigger track 0 and notes 15
and 127 trigger track 15); note-offs and all other event kinds are skipped,
and a block with no note-on produces no trigger at all. -/
theorem midi_note_on_mapping (msgs rest : List MidiMessage) (n v m w : Nat)
    (hno : ∀ x ∈ msgs, x.isNoteOn = false) :
    midiTriggers (MidiMessage.noteOn n v :: rest) = n % 16 :: midiTriggers rest ∧
    midiTriggers (MidiMessage.noteOff m w :: rest) = midiTriggers rest ∧
    midiTriggers (MidiMessage.other :: rest) = midiTriggers rest ∧
    n % 16 < 16 ∧
    midiTriggers msgs = [] ∧
    midiTriggers
      [MidiMessage.noteOn 0 64, MidiMessage.noteOn 16 64, MidiMessage.noteOn 32 64,
       MidiMessage.noteOn 48 64, MidiMessage.noteOn 15 64, MidiMessage.noteOn 127 64,
       MidiMessage.noteOff 60 0] = [0, 0, 0, 0, 15, 15] := by
  refine ⟨rfl, rfl, rfl, Nat.mod_lt n (by norm_num), ?_, by decide⟩
  clear rest
  induction msgs with
  | nil => rfl
  | cons x xs ih =>
      have hx : x.isNoteOn = false := hno x (List.mem_cons_self x xs)
      have hxs : ∀ y ∈ xs, y.isNoteOn = false := fun y hy =>
        hno y (List.mem_cons_of_mem x hy)
      simp [midiTriggers, hx]
      exact ih hxs

/-- C6 witness: a concrete block containing one non-note-on event. -/
theorem midi_note_on_mapping_witness :
    midiTriggers (MidiMessage.noteOn 3 100 :: []) = 3 % 16 :: midiTriggers [] ∧
    midiTriggers (MidiMessage.noteOff 60 0 :: []) = midiTriggers [] ∧
    midiTriggers (MidiMessage.other :: []) = midiTriggers [] ∧
    3 % 16 < 16 ∧
    midiTriggers [MidiMessage.other] = [] ∧
    midiTriggers
      [MidiMessage.noteOn 0 64, MidiMessage.noteOn 16 64, MidiMessage.noteOn 32 64,
       MidiMessage.noteOn 48 64, MidiMessage.noteOn 15 64, MidiMessage.noteOn 127 64,
       MidiMessage.noteOff 60 0] = [0, 0, 0, 0, 15, 15] :=
  midi_note_on_mapping [MidiMessage.other] [] 3 100 60 0 (by decide)

/-- C9: on a structurally valid decode, each scalar field absent from the
input takes exactly its registered default (tempo 120, swing 0, master 0.8,
patternLength 16, pocketOffset 0, pushOffset -0.04, pullOffset 0.06,
dillaAmount 0.6, dillaHatBias 0.55, dillaSnareLate 0.8, dillaKickTight 0.7,
dillaMaxDrift 0.15, structure 0.5, stereoWidth 0.5, roomWidth 0.3,
effectsWidth 0.7, preset 0), and unknown extra properties have no influence:
two inputs agreeing on the 17 known keys decode to identical plugin states. -/
theorem decode_missing_fields_take_defaults (pl : Plugin) (t t2 : ValueTree) :
    (findProp t.props "tempo" = none →
      (setStateInformation (StreamFormat.xml t) pl).registry.tempo = 120) ∧
    (findProp t.props "swing" = none →
      (setStateInformation (StreamFormat.xml t) pl).registry.swing = 0) ∧
    (findProp t.props "master" = none →
      (setStateInformation (StreamFormat.xml t) pl).registry.master = 0.8) ∧
    (findProp t.props "patternLength" = none →
      (setStateInformation (StreamFormat.xml t) pl).registry.patternLength = 16) ∧
    (findProp t.props "pocketOffset" = none →
      (setStateInformation (StreamFormat.xml t) pl).registry.pocketOffset = 0) ∧
    (findProp t.props "pushOffset" = none →
      (setStateInformation (StreamFormat.xml t) pl).registry.pushOffset = -0.04) ∧
    (findProp t.props "pullOffset" = none →
      (setStateInformation (StreamFormat.xml t) pl).registry.pullOffset = 0.06) ∧
    (findProp t.props "dillaAmount" = none →
      (setStateInformation (StreamFormat.xml t) pl).registry.dillaAmount = 0.6) ∧
    (findProp t.props "dillaHatBias" = none →
      (setStateInformation (StreamFormat.xml t) pl).registry.dillaHatBias = 0.55) ∧
    (findProp t.props "dillaSnareLate" = none →
      (setStateInformation (StreamFormat.xml t) pl).registry.dillaSnareLate = 0.8) ∧
    (findProp t.props "dillaKickTight" = none →
      (setStateInformation (StreamFormat.xml t) pl).registry.dillaKickTight = 0.7) ∧
    (findProp t.props "dillaMaxDrift" = none →
      (setStateInformation (StreamFormat.xml t) pl).registry.dillaMaxDrift = 0.15) ∧
    (findProp t.props "structure" = none →
      (setStateInformation (StreamFormat.xml t) pl).registry.«structure» = 0.5) ∧
    (findProp t.props "stereoWidth" = none →
      (setStateInformation (StreamFormat.xml t) pl).registry.stereoWidth = 0.5) ∧
    (findProp t.props "roomWidth" = none →
      (setStateInformation (StreamFormat.xml t) pl).registry.roomWidth = 0.3) ∧
    (findProp t.props "effectsWidth" = none →
      (setStateInformation (StreamFormat.xml t) pl).registry.effectsWidth = 0.7) ∧
    (findProp t.props "preset" = none →
      (setStateInformation (StreamFormat.xml t) pl).currentPresetIndex = 0) ∧
    ((∀ k ∈ persistedKeys, findProp t.props k = findProp t2.props k) →
      setStateInformation (StreamFormat.xml t) pl =
        setStateInformation (StreamFormat.xml t2) pl) := by
  refine ⟨?_, ?_, ?_, ?_, ?_, ?_, ?_, ?_, ?_, ?_, ?_, ?_, ?_, ?_, ?_, ?_, ?_, ?_⟩
  · intro h
    rw [setState_xml_registry]
    simp [applyState, getPropertyFloat, h]
    exact clampQ_eq_self _ _ _ (by norm_num) (by norm_num)
  · intro h
    rw [setState_xml_registry]
    simp [applyState, getPropertyFloat, h]
    exact clampQ_eq_self _ _ _ (by norm_num) (by norm_num)
  · intro h
    rw [setState_xml_registry]
    simp [applyState, getPropertyFloat, h]
    exact clampQ_eq_self _ _ _ (by norm_num) (by norm_num)
  · intro h
    rw [setState_xml_registry]
    simp [applyState, getPropertyFloat, h]
    exact clampQ_eq_self _ _ _ (by norm_num) (by norm_num)
  · intro h
    rw [setState_xml_registry]
    simp [applyState, getPropertyFloat, h]
    exact clampQ_eq_self _ _ _ (by norm_num) (by norm_num)
  · intro h
    rw [setState_xml_registry]
    simp [applyState, getPropertyFloat, h]
    exact clampQ_eq_self _ _ _ (by norm_num) (by norm_num)
  · intro h
    rw [setState_xml_registry]
    simp [applyState, getPropertyFloat, h]
    exact clampQ_eq_self _ _ _ (by norm_num) (by norm_num)
  · intro h
    rw [setState_xml_registry]
    simp [applyState, getPropertyFloat, h]
    exact clampQ_eq_self _ _ _ (by norm_num) (by norm_num)
  · intro h
    rw [setState_xml_registry]
    simp [applyState, getPropertyFloat, h]
    exact clampQ_eq_self _ _ _ (by norm_num) (by norm_num)
  · intro h
    rw [setState_xml_registry]
    simp [applyState, getPropertyFloat, h]
    exact clampQ_eq_self _ _ _ (by norm_num) (by norm_num)
  · intro h
    rw [setState_xml_registry]
    simp [applyState, getPropertyFloat, h]
    exact clampQ_eq_self _ _ _ (by norm_num) (by norm_num)
  · intro h
    rw [setState_xml_registry]
    simp [applyState, getPropertyFloat, h]
    exact clampQ_eq_self _ _ _ (by norm_num) (by norm_num)
  · intro h
    rw [setState_xml_registry]
    simp [applyState, getPropertyFloat, h]
    exact clampQ_eq_self _ _ _ (by norm_num) (by norm_num)
  · intro h
    rw [setState_xml_registry]
    simp [applyState, getPropertyFloat, h]
    exact clampQ_eq_self _ _ _ (by norm_num) (by norm_num)
  · intro h
    rw [setState_xml_registry]
    simp [applyState, getPropertyFloat, h]
    exact clampQ_eq_self _ _ _ (by norm_num) (by norm_num)
  · intro h
    rw [setState_xml_registry]
    simp [applyState, getPropertyFloat, h]
    exact clampQ_eq_self _ _ _ (by norm_num) (by norm_num)
  · intro h
    rw [setState_xml_index]
    simp [getPropertyInt, h]
  · intro h
    have e : ∀ k d, k ∈ persistedKeys → getPropertyFloat t k d = getPropertyFloat t2 k d := by
      intro k d hk
      unfold getPropertyFloat
      rw [h k hk]
    have ei : getPropertyInt t "preset" 0 = getPropertyInt t2 "preset" 0 := by
      unfold getPropertyInt
      rw [h "preset" (by decide)]
    have ea : applyState t pl.registry = applyState t2 pl.registry := by
      unfold applyState
      rw [e "tempo" 120 (by decide), e "swing" 0 (by decide), e "master" 0.8 (by decide),
        e "patternLength" 16 (by decide), e "pocketOffset" 0 (by decide),
        e "pushOffset" (-0.04) (by decide), e "pullOffset" 0.06 (by decide),
        e "dillaAmount" 0.6 (by decide), e "dillaHatBias" 0.55 (by decide),
        e "dillaSnareLate" 0.8 (by decide), e "dillaKickTight" 0.7 (by decide),
        e "dillaMaxDrift" 0.15 (by decide), e "structure" 0.5 (by decide),
        e "stereoWidth" 0.5 (by decide), e "roomWidth" 0.3 (by decide),
        e "effectsWidth" 0.7 (by decide)]
    simp only [setStateInformation, xmlParse]
    rw [ea, ei]

/-- C9 witness: an input holding only an unknown key decodes like the empty
input, and every field lands on its registered default. -/
theorem decode_missing_fields_take_defaults_witness :
    (setStateInformation (StreamFormat.xml stateUnknownKey) pl0).registry.tempo = 120 ∧
    (setStateInformation (StreamFormat.xml stateUnknownKey) pl0).registry.swing = 0 ∧
    (setStateInformation (StreamFormat.xml stateUnknownKey) pl0).registry.master = 0.8 ∧
    (setStateInformation (StreamFormat.xml stateUnknownKey) pl0).registry.patternLength = 16 ∧
    (setStateInformation (StreamFormat.xml stateUnknownKey) pl0).registry.pocketOffset = 0 ∧
    (setStateInformation (StreamFormat.xml stateUnknownKey) pl0).registry.pushOffset = -0.04 ∧
    (setStateInformation (StreamFormat.xml stateUnknownKey) pl0).registry.pullOffset = 0.06 ∧
    (setStateInformation (StreamFormat.xml stateUnknownKey) pl0).registry.dillaAmount = 0.6 ∧
    (setStateInformation (StreamFormat.xml stateUnknownKey) pl0).registry.dillaHatBias = 0.55 ∧
    (setStateInformation (StreamFormat.xml stateUnknownKey) pl0).registry.dillaSnareLate = 0.8 ∧
    (setStateInformation (StreamFormat.xml stateUnknownKey) pl0).registry.dillaKickTight = 0.7 ∧
    (setStateInformation (StreamFormat.xml stateUnknownKey) pl0).registry.dillaMaxDrift = 0.15 ∧
    (setStateInformation (StreamFormat.xml stateUnknownKey) pl0).registry.«structure» = 0.5 ∧
    (setStateInformation (StreamFormat.xml stateUnknownKey) pl0).registry.stereoWidth = 0.5 ∧
    (setStateInformation (StreamFormat.xml stateUnknownKey) pl0).registry.roomWidth = 0.3 ∧
    (setStateInformation (StreamFormat.xml stateUnknownKey) pl0).registry.effectsWidth = 0.7 ∧
    (setStateInformation (StreamFormat.xml stateUnknownKey) pl0).currentPresetIndex = 0 ∧
    setStateInformation (StreamFormat.xml stateUnknownKey) pl0 =
      setStateInformation (StreamFormat.xml stateEmpty) pl0 := by
  obtain ⟨h1, h2, h3, h4, h5, h6, h7, h8, h9, h10, h11, h12, h13, h14, h15, h16, h17, h18⟩ :=
    decode_missing_fields_take_defaults pl0 stateUnknownKey stateEmpty
  exact ⟨h1 (by decide), h2 (by decide), h3 (by decide), h4 (by decide), h5 (by decide),
    h6 (by decide), h7 (by decide), h8 (by decide), h9 (by decide), h10 (by decide),
    h11 (by decide), h12 (by decide), h13 (by decide), h14 (by decide), h15 (by decide),
    h16 (by decide), h17 (by decide), h18 (by decide)⟩

/-- C10: decoding a valid state whose embedded preset index is out of range
still stores that index, so getCurrentProgram afterwards returns the
out-of-range value, while the current preset snapshot keeps its previous
value — the in-range invariant on the current program index is not preserved
by state restore. -/
theorem setState_keeps_out_of_range_index (pl : Plugin) (t : ValueTree)
    (hout : ¬ (0 ≤ getPropertyInt t "preset" 0 ∧
               getPropertyInt t "preset" 0 < (pl.factoryPresets.length : ℤ))) :
    (setStateInformation (StreamFormat.xml t) pl).currentPresetIndex =
      getPropertyInt t "preset" 0 ∧
    getCurrentProgram (setStateInformation (StreamFormat.xml t) pl) =
      getPropertyInt t "preset" 0 ∧
    (setStateInformation (StreamFormat.xml t) pl).currentPreset = pl.currentPreset := by
  refine ⟨setState_xml_index pl t, ?_, ?_⟩
  · rw [getCurrentProgram]
    exact setState_xml_index pl t
  · simp [setStateInformation, xmlParse, hout]

/-- C10 witness: restoring a state whose stored preset index is 99 on a fresh
plugin with a 10-entry table. -/
theorem setState_keeps_out_of_range_index_witness :
    (setStateInformation (StreamFormat.xml statePreset99) pl0).currentPresetIndex =
      getPropertyInt statePreset99 "preset" 0 ∧
    getCurrentProgram (setStateInformation (StreamFormat.xml statePreset99) pl0) =
      getPropertyInt statePreset99 "preset" 0 ∧
    (setStateInformation (StreamFormat.xml statePreset99) pl0).currentPreset =
      pl0.currentPreset :=
  setState_keeps_out_of_range_index pl0 statePreset99 (by decide)

end WhiteRoomDrum
